import Mathlib

/-!
Shallow embedding of `custom_components/wyzeapi/light.py` (and the parts of
`entity.py` it uses) from the hacs-wyze repository, together with theorems
settling the specification claims about that platform module.

Modelling conventions:
* Vendor-library enumerations (`wyzeapy.types.DeviceTypes`, `PropertyIDs`)
  are modelled as inductive types; the code only compares them for identity.
* Python `dict` lookups with defaults are modelled with `Option`.
* Python floats appear only in two places relevant to the claims:
  `round((brightness / 255) * 100)` and `round(brightness * 2.55, 1)`.
  Both are modelled with exact rational arithmetic and Python's
  round-half-to-even (`pyRound`).  For `round((b / 255) * 100)` with an
  integer `b` the exact value `20*b/51` is never a half-integer and is at
  distance at least `1/102` from every half-integer, far above the double
  rounding error, so the exact-rational model agrees with CPython.  For
  `round(p * 2.55, 1)` the exact value `51*p/20` hits a decimal midpoint at
  odd `p`, where CPython's binary double may round a tenth lower than the
  exact model; the properties proved (range and endpoints) are insensitive
  to that midpoint choice.
* `homeassistant.util.color.color_temperature_mired_to_kelvin` and
  `color_temperature_kelvin_to_mired` are both `math.floor(1000000 / x)`;
  for positive integer input the float quotient is within `2^-40` of the
  exact value while the exact value is either an integer or at distance at
  least `1/x` from one, so floor of the float equals natural division.
  Python raises `ZeroDivisionError` at input `0`; the model uses natural
  division (`1000000 / 0 = 0`), and every theorem touching this path
  carries the hypothesis that a supplied mired value is nonzero.
* The float-valued colour conversions `color_temperature_to_rgb` and
  `color_hs_to_RGB` composed with `color_rgb_to_hex` only ever produce an
  opaque hex string stored in `Bulb.color` / sent as a `COLOR` pair; no
  claim depends on the string value, so the two compositions are passed to
  the model as function parameters (`kelvinToHex`, `hsToHex`).
-/

/-- Device-type enumeration from `wyzeapy.types.DeviceTypes`, restricted to
the constructors this module compares against, plus representatives of the
other vendor device types (which the module treats uniformly as
unsupported). -/
inductive DeviceTypes where
  | LIGHT
  | MESH_LIGHT
  | LIGHTSTRIP
  | CAMERA
  | PLUG
  | LOCK
  | UNKNOWN
deriving DecidableEq

/-- Property-ID enumeration from `wyzeapy.types.PropertyIDs`, restricted to
the members used by `light.py`. -/
inductive PropertyIDs where
  | BRIGHTNESS
  | COLOR_TEMP
  | COLOR
  | COLOR_MODE
  | SUN_MATCH
  | LIGHTSTRIP_EFFECTS
deriving DecidableEq

/-- Property-ID/value pair as produced by `wyzeapy.utils.create_pid_pair`
(a two-entry dict holding the property id and its string value). -/
structure PidPair where
  pid : PropertyIDs
  pvalue : String
deriving DecidableEq

/-- Embedding of `wyzeapy.utils.create_pid_pair`. -/
def create_pid_pair (pid : PropertyIDs) (pvalue : String) : PidPair :=
  ⟨pid, pvalue⟩

/-- Effect-name constant `EFFECT_SUN_MATCH` from `light.py` line 47. -/
def EFFECT_SUN_MATCH : String := "sun match"

/-- Effect-name constant `EFFECT_SHADOW` from `light.py` line 48. -/
def EFFECT_SHADOW : String := "shadow"

/-- Effect-name constant `EFFECT_LEAP` from `light.py` line 49. -/
def EFFECT_LEAP : String := "leap"

/-- Effect-name constant `EFFECT_FLICKER` from `light.py` line 50. -/
def EFFECT_FLICKER : String := "flicker"

/-- Vendor bulb record (`wyzeapy.services.bulb_service.Bulb`), restricted to
the fields `light.py` reads or writes.  `brightness` is the vendor-side
percentage, `colorTemp` the vendor-side Kelvin value, `color` a hex string,
`colorMode` and `effects` the vendor discriminator strings, `productType`
the already-parsed device type. -/
structure Bulb where
  productType : DeviceTypes
  «on» : Bool
  brightness : Int
  colorTemp : Nat
  color : String
  colorMode : String
  effects : String
  sunMatch : Bool
deriving DecidableEq

/-- Vendor camera record (`wyzeapy.services.camera_service.Camera`),
restricted to what `light.py` uses: `spotlightStatus` models
`camera.device_params.get("spotlight_status", ...)`, with `none` for a
missing key. -/
structure Camera where
  spotlightStatus : Option Int
  floodlight : Bool
deriving DecidableEq

/-- Python built-in `round` to the nearest integer on an exact rational:
round half to even, as CPython does. -/
def pyRound (x : ℚ) : ℤ :=
  let f : ℤ := x.floor
  let frac : ℚ := x - f
  if frac < 1/2 then f
  else if 1/2 < frac then f + 1
  else if f % 2 = 0 then f else f + 1

/-- Python `round(x, 1)` (one decimal digit) on an exact rational. -/
def pyRoundTo1 (x : ℚ) : ℚ := (pyRound (x * 10) : ℚ) / 10

/-- Embedding of `homeassistant.util.color.color_temperature_mired_to_kelvin`,
which is `math.floor(1000000 / mired_temperature)`. -/
def color_temperature_mired_to_kelvin (mired : Nat) : Nat := 1000000 / mired

/-- Embedding of `homeassistant.util.color.color_temperature_kelvin_to_mired`,
which is `math.floor(1000000 / kelvin_temperature)`. -/
def color_temperature_kelvin_to_mired (kelvin : Nat) : Nat := 1000000 / kelvin

/-- Python exceptions raised by the modelled code paths. -/
inductive PyExc where
  | AttributeError (msg : String)
deriving DecidableEq

/-- State of a `WyzeLight` entity: the referenced bulb record, the
device type computed in `__init__`, the `_local_control` option, and the
`_just_updated` flag (class attribute initialised to `False`). -/
structure WyzeLight where
  device : Bulb
  deviceType : DeviceTypes
  localControl : Bool
  justUpdated : Bool
deriving DecidableEq

/-- Embedding of `WyzeLight.__init__` (light.py lines 92-106): store the
bulb, its parsed device type and the `BULB_LOCAL_CONTROL` option, then
raise `AttributeError("Device type not supported")` when the device type is
not `LIGHT`, `MESH_LIGHT` or `LIGHTSTRIP`.  The `optLC` argument models
`config_entry.options.get(BULB_LOCAL_CONTROL)`. -/
def WyzeLight.init (bulb : Bulb) (optLC : Bool) : Except PyExc WyzeLight :=
  if bulb.productType ∈ [DeviceTypes.LIGHT, DeviceTypes.MESH_LIGHT, DeviceTypes.LIGHTSTRIP] then
    Except.ok { device := bulb, deviceType := bulb.productType,
                localControl := optLC, justUpdated := false }
  else
    Except.error (PyExc.AttributeError "Device type not supported")

/-- Keyword arguments of `WyzeLight.async_turn_on`: the host attributes
`ATTR_BRIGHTNESS` (0-255 integer), `ATTR_COLOR_TEMP` (mireds),
`ATTR_HS_COLOR` (hue/saturation pair) and `ATTR_EFFECT` (effect name). -/
structure TurnOnArgs where
  brightness : Option Nat
  colorTemp : Option Nat
  hsColor : Option (ℚ × ℚ)
  effect : Option String
deriving DecidableEq

/-- Truthiness of `kwargs.get(ATTR_COLOR_TEMP, kwargs.get(ATTR_HS_COLOR))`
(light.py line 132): when `ATTR_COLOR_TEMP` is present the lookup returns
that integer, truthy iff nonzero; otherwise it returns the HS tuple when
present (a two-element tuple, always truthy) and `None` (falsy) when not. -/
def ctOrHsTruthy (args : TurnOnArgs) : Bool :=
  match args.colorTemp with
  | some ct => ct != 0
  | none => args.hsColor.isSome

/-- Intermediate state threaded through the body of `async_turn_on`: the
`options` list under construction, the bulb record being mutated, and the
method-local `_local_control` value. -/
structure TOState where
  options : List PidPair
  dev : Bulb
  localControl : Bool

/-- Lines 119-127 of `light.py`: when `ATTR_BRIGHTNESS` is supplied,
append a `BRIGHTNESS` pair valued `str(round((b / 255) * 100))` and store
the percentage in the bulb record. -/
def brightnessStep (args : TurnOnArgs) (s : TOState) : TOState :=
  match args.brightness with
  | some b =>
      let brightness := pyRound ((b : ℚ) / 255 * 100)
      { s with
        options := s.options ++ [create_pid_pair PropertyIDs.BRIGHTNESS (toString brightness)],
        dev := { s.dev with brightness := brightness } }
  | none => s

/-- Lines 129-135 of `light.py`: when the bulb has sun match enabled and a
truthy colour-temperature-or-HS argument is supplied, append a
`SUN_MATCH` pair valued `str(0)` and clear the bulb's sun-match flag. -/
def sunMatchStep (args : TurnOnArgs) (s : TOState) : TOState :=
  if s.dev.sunMatch then
    if ctOrHsTruthy args then
      { s with
        options := s.options ++ [create_pid_pair PropertyIDs.SUN_MATCH "0"],
        dev := { s.dev with sunMatch := false } }
    else s
  else s

/-- Lines 137-154 of `light.py`: when `ATTR_COLOR_TEMP` is supplied,
convert mireds to Kelvin, append a `COLOR_TEMP` pair, additionally append
a `COLOR_MODE` pair valued `str(2)` (white mode) for mesh lights and
lightstrips, and store the Kelvin value and the derived hex colour
(`kelvinToHex` abstracts `color_rgb_to_hex(*color_temperature_to_rgb(k))`). -/
def colorTempStep (kelvinToHex : Nat → String) (args : TurnOnArgs)
    (devType : DeviceTypes) (s : TOState) : TOState :=
  match args.colorTemp with
  | some m =>
      let color_temp := color_temperature_mired_to_kelvin m
      let s1 := { s with
        options := s.options ++ [create_pid_pair PropertyIDs.COLOR_TEMP (toString color_temp)] }
      let s2 :=
        if devType ∈ [DeviceTypes.MESH_LIGHT, DeviceTypes.LIGHTSTRIP] then
          { s1 with
            options := s1.options ++ [create_pid_pair PropertyIDs.COLOR_MODE "2"],
            dev := { s1.dev with colorMode := "2" } }
        else s1
      { s2 with dev := { s2.dev with colorTemp := color_temp, color := kelvinToHex color_temp } }
  | none => s

/-- Lines 156-175 of `light.py`: when `ATTR_HS_COLOR` is supplied and the
device is a mesh light or lightstrip, append a `COLOR` pair (the hex string
computed by `hsToHex`, abstracting
`color_rgb_to_hex(*color_hs_to_RGB(*hs))`) and a `COLOR_MODE` pair valued
`str(1)` (colour mode), and store both on the bulb record. -/
def hsColorStep (hsToHex : ℚ × ℚ → String) (args : TurnOnArgs)
    (devType : DeviceTypes) (s : TOState) : TOState :=
  match args.hsColor with
  | some hs =>
      if devType = DeviceTypes.MESH_LIGHT ∨ devType = DeviceTypes.LIGHTSTRIP then
        let color := hsToHex hs
        { s with
          options := s.options ++
            [create_pid_pair PropertyIDs.COLOR color,
             create_pid_pair PropertyIDs.COLOR_MODE "1"],
          dev := { s.dev with color := color, colorMode := "1" } }
      else s
  | none => s

/-- Lines 177-206 of `light.py`: when `ATTR_EFFECT` is supplied, either
enable sun match (`SUN_MATCH` pair valued `str(1)`), or enter effects mode:
disable local control for mesh lights (which read the current device record,
`self._device.type`), append a `COLOR_MODE` pair valued `str(3)`, and for
the shadow/leap/flicker effects append a `LIGHTSTRIP_EFFECTS` pair with the
matching discriminator. -/
def effectStep (args : TurnOnArgs) (s : TOState) : TOState :=
  match args.effect with
  | some e =>
      if e = EFFECT_SUN_MATCH then
        { s with
          options := s.options ++ [create_pid_pair PropertyIDs.SUN_MATCH "1"],
          dev := { s.dev with sunMatch := true } }
      else
        let s1 : TOState :=
          { options := s.options ++ [create_pid_pair PropertyIDs.COLOR_MODE "3"],
            dev := { s.dev with colorMode := "3" },
            localControl := if s.dev.productType = DeviceTypes.MESH_LIGHT then false else s.localControl }
        if e = EFFECT_SHADOW then
          { s1 with
            options := s1.options ++ [create_pid_pair PropertyIDs.LIGHTSTRIP_EFFECTS "1"],
            dev := { s1.dev with effects := "1" } }
        else if e = EFFECT_LEAP then
          { s1 with
            options := s1.options ++ [create_pid_pair PropertyIDs.LIGHTSTRIP_EFFECTS "2"],
            dev := { s1.dev with effects := "2" } }
        else if e = EFFECT_FLICKER then
          { s1 with
            options := s1.options ++ [create_pid_pair PropertyIDs.LIGHTSTRIP_EFFECTS "3"],
            dev := { s1.dev with effects := "3" } }
        else s1
  | none => s

/-- Remote call handed to the event loop.  `loop.create_task(...)` makes the
call pending data rather than an awaited result, so the scheduled call is
represented as a value carrying the arguments the service would receive. -/
inductive ScheduledCall where
  | bulbTurnOn (device : Bulb) (localControl : Bool) (options : List PidPair)
  | bulbTurnOff (device : Bulb) (localControl : Bool)
deriving DecidableEq

/-- Option list carried by a scheduled service call (`turn_off` sends none). -/
def ScheduledCall.optionsSent : ScheduledCall → List PidPair
  | ScheduledCall.bulbTurnOn _ _ options => options
  | ScheduledCall.bulbTurnOff _ _ => []

/-- Result of a `WyzeLight` command method: the mutated entity state and the
remote call that was scheduled (fire-and-forget, never awaited). -/
structure LightCallResult where
  entity : WyzeLight
  scheduled : ScheduledCall
deriving DecidableEq

/-- Option list a command result will send to the service. -/
def LightCallResult.options (r : LightCallResult) : List PidPair :=
  r.scheduled.optionsSent

/-- Embedding of `WyzeLight.async_turn_on` (light.py lines 114-216).
The method re-reads the `BULB_LOCAL_CONTROL` option (`optLC`), builds the
`options` list and mutates the bulb record through the five conditional
blocks, schedules `self._service.turn_on(self._device, self._local_control,
options)` on the event loop without awaiting it, then optimistically sets
`self._device.on = True` and `self._just_updated = True`.  The scheduled
call captures the bulb record as of line 211 (Python aliasing then makes
the later `on = True` visible to the task as well; no claim inspects the
scheduled record). -/
def WyzeLight.async_turn_on (hsToHex : ℚ × ℚ → String) (kelvinToHex : Nat → String)
    (ent : WyzeLight) (optLC : Bool) (args : TurnOnArgs) : LightCallResult :=
  let s0 : TOState := { options := [], dev := ent.device, localControl := optLC }
  let s := effectStep args
    (hsColorStep hsToHex args ent.deviceType
      (colorTempStep kelvinToHex args ent.deviceType
        (sunMatchStep args (brightnessStep args s0))))
  { entity := { ent with
      device := { s.dev with «on» := true },
      localControl := s.localControl,
      justUpdated := true },
    scheduled := ScheduledCall.bulbTurnOn s.dev s.localControl s.options }

/-- Embedding of `WyzeLight.async_turn_off` (light.py lines 218-226):
re-read the local-control option, schedule `turn_off` without awaiting it,
then optimistically set `on = False` and `_just_updated = True`. -/
def WyzeLight.async_turn_off (ent : WyzeLight) (optLC : Bool) : LightCallResult :=
  { entity := { ent with
      device := { ent.device with «on» := false },
      localControl := optLC,
      justUpdated := true },
    scheduled := ScheduledCall.bulbTurnOff ent.device optLC }

/-- Embedding of the `WyzeLight.brightness` property (light.py line 303):
`round(self._device.brightness * 2.55, 1)`. -/
def WyzeLight.brightness (ent : WyzeLight) : ℚ :=
  pyRoundTo1 ((ent.device.brightness : ℚ) * 2.55)

/-- Embedding of the `WyzeLight.color_temp` property (light.py line 308):
`color_temperature_kelvin_to_mired(self._device.color_temp)`. -/
def WyzeLight.color_temp (ent : WyzeLight) : Nat :=
  color_temperature_kelvin_to_mired ent.device.colorTemp

/-- Embedding of the `WyzeLight.max_mireds` property (light.py lines 311-314). -/
def WyzeLight.max_mireds (devType : DeviceTypes) : Nat :=
  if devType = DeviceTypes.MESH_LIGHT then color_temperature_kelvin_to_mired 1800 - 1
  else color_temperature_kelvin_to_mired 2700 - 1

/-- Embedding of the `WyzeLight.min_mireds` property (light.py lines 317-318). -/
def WyzeLight.min_mireds : Nat := color_temperature_kelvin_to_mired 6500 + 1

/-- Embedding of `WyzeLight.async_update` (light.py lines 335-344): when the
`_just_updated` flag is clear, replace the device record with the service
result (`fresh`); otherwise leave the record alone and clear the flag.  The
returned boolean records whether `self._service.update` was called. -/
def WyzeLight.async_update (ent : WyzeLight) (fresh : Bulb) : WyzeLight × Bool :=
  if !ent.justUpdated then ({ ent with device := fresh }, true)
  else ({ ent with justUpdated := false }, false)

/-- Entities the setup function hands to `async_add_entities`. -/
inductive LightPlatformEntity where
  | light (l : WyzeLight)
  | cameraFloodlight (c : Camera)
deriving DecidableEq

/-- Construction of the `lights` list comprehension of `async_setup_entry`
(light.py lines 73-76): one `WyzeLight` per bulb, with a constructor
exception propagating out of the comprehension. -/
def buildWyzeLights (optLC : Bool) : List Bulb → Except PyExc (List LightPlatformEntity)
  | [] => Except.ok []
  | b :: bs => do
    let l ← WyzeLight.init b optLC
    let rest ← buildWyzeLights optLC bs
    pure (LightPlatformEntity.light l :: rest)

/-- Embedding of `async_setup_entry` (light.py lines 53-82): build one
`WyzeLight` per bulb returned by `bulb_service.get_bulbs()`, then append one
`WyzeCamerafloodlight` per camera returned by `camera_service.get_cameras()`
whose `device_params.get("spotlight_status", 0)` is positive, and hand the
list to `async_add_entities`. -/
def async_setup_entry (optLC : Bool) (bulbs : List Bulb) (cameras : List Camera) :
    Except PyExc (List LightPlatformEntity) := do
  let lights ← buildWyzeLights optLC bulbs
  pure (lights ++
    (cameras.filter fun c => 0 < c.spotlightStatus.getD 0).map
      LightPlatformEntity.cameraFloodlight)

/-- Manner in which a method issues its remote service call. -/
inductive CallStyle where
  | fireAndForget
  | awaited
deriving DecidableEq

/-- Call style of `WyzeLight.async_turn_on`: line 210 uses
`loop.create_task(self._service.turn_on(...))` and never awaits the task. -/
def wyzeLightTurnOnCallStyle : CallStyle := CallStyle.fireAndForget

/-- Call style of `WyzeLight.async_turn_off`: line 222 uses
`loop.create_task(self._service.turn_off(...))` and never awaits the task. -/
def wyzeLightTurnOffCallStyle : CallStyle := CallStyle.fireAndForget

/-- Call style of `WyzeCamerafloodlight.async_turn_on`: line 375 awaits
`self._service.floodlight_on(self._device)`. -/
def floodlightTurnOnCallStyle : CallStyle := CallStyle.awaited

/-- Call style of `WyzeCamerafloodlight.async_turn_off`: line 381 awaits
`self._service.floodlight_off(self._device)`. -/
def floodlightTurnOffCallStyle : CallStyle := CallStyle.awaited

/-- Names of the operations defined by `light.py`. -/
inductive OpName where
  | asyncSetupEntry
  | lightAsyncTurnOn
  | lightAsyncTurnOff
  | lightAsyncUpdate
  | lightAsyncUpdateCallback
  | lightAsyncAddedToHass
  | lightAsyncWillRemoveFromHass
  | floodlightAsyncTurnOn
  | floodlightAsyncTurnOff
  | floodlightHandleCameraUpdate
  | floodlightAsyncAddedToHass
deriving DecidableEq

/-- Structural facts about one operation of `light.py`: whether it carries
the `@token_exception_handler` decorator, whether its body calls into the
vendor client library (a `wyzeapy` service or client object), and whether
its body contains any other error handling (a try/except). -/
structure OpInfo where
  name : OpName
  tokenWrapped : Bool
  issuesVendorCalls : Bool
  hasTryExcept : Bool
deriving DecidableEq

/-- Operation table of `light.py`, read off the source:
`async_setup_entry` (line 53, decorated; awaits `client.camera_service`,
`client.bulb_service`, `get_bulbs`, `get_cameras`);
`WyzeLight.async_turn_on` (line 114, decorated; schedules
`self._service.turn_on`); `WyzeLight.async_turn_off` (line 218, decorated;
schedules `self._service.turn_off`); `WyzeLight.async_update` (line 335,
decorated; awaits `self._service.update`); `WyzeLight.async_update_callback`
(line 346, undecorated; dispatcher only); `WyzeLight.async_added_to_hass`
(line 354, undecorated; calls `self._service.register_updater` and awaits
`self._service.start_update_manager`); `WyzeLight.async_will_remove_from_hass`
(line 361, undecorated; calls `self._service.unregister_updater`);
`WyzeCamerafloodlight.async_turn_on` (line 372, decorated; awaits
`floodlight_on`); `WyzeCamerafloodlight.async_turn_off` (line 378,
decorated; awaits `floodlight_off`); `WyzeCamerafloodlight.handle_camera_update`
(line 397, undecorated; host state write only);
`WyzeCamerafloodlight.async_added_to_hass` (line 403, undecorated;
dispatcher only).  `WyzeCamerafloodlight` defines no `async_update` method.
No operation in the file contains a try/except. -/
def lightModuleOps : List OpInfo :=
  [ ⟨OpName.asyncSetupEntry, true, true, false⟩,
    ⟨OpName.lightAsyncTurnOn, true, true, false⟩,
    ⟨OpName.lightAsyncTurnOff, true, true, false⟩,
    ⟨OpName.lightAsyncUpdate, true, true, false⟩,
    ⟨OpName.lightAsyncUpdateCallback, false, false, false⟩,
    ⟨OpName.lightAsyncAddedToHass, false, true, false⟩,
    ⟨OpName.lightAsyncWillRemoveFromHass, false, true, false⟩,
    ⟨OpName.floodlightAsyncTurnOn, true, true, false⟩,
    ⟨OpName.floodlightAsyncTurnOff, true, true, false⟩,
    ⟨OpName.floodlightHandleCameraUpdate, false, false, false⟩,
    ⟨OpName.floodlightAsyncAddedToHass, false, false, false⟩ ]

/-- Reading of claim C5's universal part over the operation table: every
operation issuing vendor-library calls is wrapped by
`token_exception_handler` and contains no other error handling. -/
def allVendorCallersWrapped : Prop :=
  ∀ o ∈ lightModuleOps, o.issuesVendorCalls = true →
    (o.tokenWrapped = true ∧ o.hasTryExcept = false)

/-! Canonical forms of the five conditional blocks of `async_turn_on`: each
step appends a block-determined segment to `options` and applies a
block-determined transform to the bulb record. -/

/-- Options segment appended by the brightness block. -/
def brOpts (args : TurnOnArgs) : List PidPair :=
  match args.brightness with
  | some b => [create_pid_pair PropertyIDs.BRIGHTNESS (toString (pyRound ((b : ℚ) / 255 * 100)))]
  | none => []

/-- Bulb transform applied by the brightness block. -/
def brDev (args : TurnOnArgs) (d : Bulb) : Bulb :=
  match args.brightness with
  | some b => { d with brightness := pyRound ((b : ℚ) / 255 * 100) }
  | none => d

/-- Options segment appended by the sun-match block. -/
def smOpts (args : TurnOnArgs) (d : Bulb) : List PidPair :=
  if d.sunMatch then
    if ctOrHsTruthy args then [create_pid_pair PropertyIDs.SUN_MATCH "0"] else []
  else []

/-- Bulb transform applied by the sun-match block. -/
def smDev (args : TurnOnArgs) (d : Bulb) : Bulb :=
  if d.sunMatch then
    if ctOrHsTruthy args then { d with sunMatch := false } else d
  else d

/-- Options segment appended by the colour-temperature block. -/
def ctOpts (args : TurnOnArgs) (devType : DeviceTypes) : List PidPair :=
  match args.colorTemp with
  | some m =>
      [create_pid_pair PropertyIDs.COLOR_TEMP (toString (color_temperature_mired_to_kelvin m))]
        ++ (if devType ∈ [DeviceTypes.MESH_LIGHT, DeviceTypes.LIGHTSTRIP] then
              [create_pid_pair PropertyIDs.COLOR_MODE "2"] else [])
  | none => []

/-- Bulb transform applied by the colour-temperature block. -/
def ctDev (kelvinToHex : Nat → String) (args : TurnOnArgs) (devType : DeviceTypes)
    (d : Bulb) : Bulb :=
  match args.colorTemp with
  | some m =>
      let k := color_temperature_mired_to_kelvin m
      let d1 := if devType ∈ [DeviceTypes.MESH_LIGHT, DeviceTypes.LIGHTSTRIP] then
          { d with colorMode := "2" } else d
      { d1 with colorTemp := k, color := kelvinToHex k }
  | none => d

/-- Options segment appended by the HS-colour block. -/
def hsOpts (hsToHex : ℚ × ℚ → String) (args : TurnOnArgs) (devType : DeviceTypes) :
    List PidPair :=
  match args.hsColor with
  | some hs =>
      if devType = DeviceTypes.MESH_LIGHT ∨ devType = DeviceTypes.LIGHTSTRIP then
        [create_pid_pair PropertyIDs.COLOR (hsToHex hs),
         create_pid_pair PropertyIDs.COLOR_MODE "1"]
      else []
  | none => []

/-- Bulb transform applied by the HS-colour block. -/
def hsDev (hsToHex : ℚ × ℚ → String) (args : TurnOnArgs) (devType : DeviceTypes)
    (d : Bulb) : Bulb :=
  match args.hsColor with
  | some hs =>
      if devType = DeviceTypes.MESH_LIGHT ∨ devType = DeviceTypes.LIGHTSTRIP then
        { d with color := hsToHex hs, colorMode := "1" }
      else d
  | none => d

/-- Options segment appended by the effect block. -/
def efOpts (args : TurnOnArgs) : List PidPair :=
  match args.effect with
  | some e =>
      if e = EFFECT_SUN_MATCH then [create_pid_pair PropertyIDs.SUN_MATCH "1"]
      else
        [create_pid_pair PropertyIDs.COLOR_MODE "3"]
          ++ (if e = EFFECT_SHADOW then [create_pid_pair PropertyIDs.LIGHTSTRIP_EFFECTS "1"]
              else if e = EFFECT_LEAP then [create_pid_pair PropertyIDs.LIGHTSTRIP_EFFECTS "2"]
              else if e = EFFECT_FLICKER then [create_pid_pair PropertyIDs.LIGHTSTRIP_EFFECTS "3"]
              else [])
  | none => []

/-- Bulb transform applied by the effect block. -/
def efDev (args : TurnOnArgs) (d : Bulb) : Bulb :=
  match args.effect with
  | some e =>
      if e = EFFECT_SUN_MATCH then { d with sunMatch := true }
      else
        let d1 := { d with colorMode := "3" }
        if e = EFFECT_SHADOW then { d1 with effects := "1" }
        else if e = EFFECT_LEAP then { d1 with effects := "2" }
        else if e = EFFECT_FLICKER then { d1 with effects := "3" }
        else d1
  | none => d

/-- Local-control transform applied by the effect block. -/
def efLC (args : TurnOnArgs) (d : Bulb) (lc : Bool) : Bool :=
  match args.effect with
  | some e =>
      if e = EFFECT_SUN_MATCH then lc
      else if d.productType = DeviceTypes.MESH_LIGHT then false else lc
  | none => lc

theorem brightnessStep_eq (args : TurnOnArgs) (s : TOState) :
    brightnessStep args s =
      { s with options := s.options ++ brOpts args, dev := brDev args s.dev } := by
  cases h : args.brightness <;> simp [brightnessStep, brOpts, brDev, h]

theorem sunMatchStep_eq (args : TurnOnArgs) (s : TOState) :
    sunMatchStep args s =
      { s with options := s.options ++ smOpts args s.dev, dev := smDev args s.dev } := by
  cases h : s.dev.sunMatch <;> cases h2 : ctOrHsTruthy args <;>
    simp [sunMatchStep, smOpts, smDev, h, h2]

theorem colorTempStep_eq (g : Nat → String) (args : TurnOnArgs) (devType : DeviceTypes)
    (s : TOState) :
    colorTempStep g args devType s =
      { s with options := s.options ++ ctOpts args devType,
               dev := ctDev g args devType s.dev } := by
  cases h : args.colorTemp with
  | none => simp [colorTempStep, ctOpts, ctDev, h]
  | some m =>
      by_cases hd : devType ∈ [DeviceTypes.MESH_LIGHT, DeviceTypes.LIGHTSTRIP] <;>
        simp [colorTempStep, ctOpts, ctDev, h, hd]

theorem hsColorStep_eq (f : ℚ × ℚ → String) (args : TurnOnArgs) (devType : DeviceTypes)
    (s : TOState) :
    hsColorStep f args devType s =
      { s with options := s.options ++ hsOpts f args devType,
               dev := hsDev f args devType s.dev } := by
  cases h : args.hsColor with
  | none => simp [hsColorStep, hsOpts, hsDev, h]
  | some hs =>
      by_cases hd : devType = DeviceTypes.MESH_LIGHT ∨ devType = DeviceTypes.LIGHTSTRIP <;>
        simp [hsColorStep, hsOpts, hsDev, h, hd]

theorem effectStep_eq (args : TurnOnArgs) (s : TOState) :
    effectStep args s =
      { s with options := s.options ++ efOpts args,
               dev := efDev args s.dev,
               localControl := efLC args s.dev s.localControl } := by
  cases h : args.effect with
  | none => simp [effectStep, efOpts, efDev, efLC, h]
  | some e =>
      by_cases h1 : e = EFFECT_SUN_MATCH
      · simp [effectStep, efOpts, efDev, efLC, h, h1]
      · by_cases h2 : e = EFFECT_SHADOW <;> by_cases h3 : e = EFFECT_LEAP <;>
          by_cases h4 : e = EFFECT_FLICKER <;>
          simp_all [effectStep, efOpts, efDev, efLC,
            EFFECT_SUN_MATCH, EFFECT_SHADOW, EFFECT_LEAP, EFFECT_FLICKER]

/-! Frame lemmas: which bulb fields each block transform leaves unchanged. -/

theorem brDev_productType (args : TurnOnArgs) (d : Bulb) :
    (brDev args d).productType = d.productType := by
  cases h : args.brightness <;> simp [brDev, h]

theorem brDev_sunMatch (args : TurnOnArgs) (d : Bulb) :
    (brDev args d).sunMatch = d.sunMatch := by
  cases h : args.brightness <;> simp [brDev, h]

theorem brDev_colorTemp (args : TurnOnArgs) (d : Bulb) :
    (brDev args d).colorTemp = d.colorTemp := by
  cases h : args.brightness <;> simp [brDev, h]

theorem brDev_colorMode (args : TurnOnArgs) (d : Bulb) :
    (brDev args d).colorMode = d.colorMode := by
  cases h : args.brightness <;> simp [brDev, h]

theorem brDev_color (args : TurnOnArgs) (d : Bulb) :
    (brDev args d).color = d.color := by
  cases h : args.brightness <;> simp [brDev, h]

theorem brDev_effects (args : TurnOnArgs) (d : Bulb) :
    (brDev args d).effects = d.effects := by
  cases h : args.brightness <;> simp [brDev, h]

theorem smDev_productType (args : TurnOnArgs) (d : Bulb) :
    (smDev args d).productType = d.productType := by
  unfold smDev; split <;> [skip; rfl] <;> split <;> rfl

theorem smDev_brightness (args : TurnOnArgs) (d : Bulb) :
    (smDev args d).brightness = d.brightness := by
  unfold smDev; split <;> [skip; rfl] <;> split <;> rfl

theorem smDev_colorTemp (args : TurnOnArgs) (d : Bulb) :
    (smDev args d).colorTemp = d.colorTemp := by
  unfold smDev; split <;> [skip; rfl] <;> split <;> rfl

theorem smDev_colorMode (args : TurnOnArgs) (d : Bulb) :
    (smDev args d).colorMode = d.colorMode := by
  unfold smDev; split <;> [skip; rfl] <;> split <;> rfl

theorem smDev_color (args : TurnOnArgs) (d : Bulb) :
    (smDev args d).color = d.color := by
  unfold smDev; split <;> [skip; rfl] <;> split <;> rfl

theorem smDev_effects (args : TurnOnArgs) (d : Bulb) :
    (smDev args d).effects = d.effects := by
  unfold smDev; split <;> [skip; rfl] <;> split <;> rfl

theorem ctDev_productType (g : Nat → String) (args : TurnOnArgs) (t : DeviceTypes) (d : Bulb) :
    (ctDev g args t d).productType = d.productType := by
  unfold ctDev; split <;> [split <;> rfl; rfl]

theorem ctDev_brightness (g : Nat → String) (args : TurnOnArgs) (t : DeviceTypes) (d : Bulb) :
    (ctDev g args t d).brightness = d.brightness := by
  unfold ctDev; split <;> [split <;> rfl; rfl]

theorem ctDev_sunMatch (g : Nat → String) (args : TurnOnArgs) (t : DeviceTypes) (d : Bulb) :
    (ctDev g args t d).sunMatch = d.sunMatch := by
  unfold ctDev; split <;> [split <;> rfl; rfl]

theorem ctDev_effects (g : Nat → String) (args : TurnOnArgs) (t : DeviceTypes) (d : Bulb) :
    (ctDev g args t d).effects = d.effects := by
  unfold ctDev; split <;> [split <;> rfl; rfl]

theorem ctDev_colorTemp (g : Nat → String) (args : TurnOnArgs) (t : DeviceTypes) (d : Bulb) :
    (ctDev g args t d).colorTemp =
      (match args.colorTemp with
       | some m => color_temperature_mired_to_kelvin m
       | none => d.colorTemp) := by
  unfold ctDev; split <;> [split <;> rfl; rfl]

theorem hsDev_productType (f : ℚ × ℚ → String) (args : TurnOnArgs) (t : DeviceTypes) (d : Bulb) :
    (hsDev f args t d).productType = d.productType := by
  unfold hsDev; split <;> [split <;> rfl; rfl]

theorem hsDev_brightness (f : ℚ × ℚ → String) (args : TurnOnArgs) (t : DeviceTypes) (d : Bulb) :
    (hsDev f args t d).brightness = d.brightness := by
  unfold hsDev; split <;> [split <;> rfl; rfl]

theorem hsDev_sunMatch (f : ℚ × ℚ → String) (args : TurnOnArgs) (t : DeviceTypes) (d : Bulb) :
    (hsDev f args t d).sunMatch = d.sunMatch := by
  unfold hsDev; split <;> [split <;> rfl; rfl]

theorem hsDev_colorTemp (f : ℚ × ℚ → String) (args : TurnOnArgs) (t : DeviceTypes) (d : Bulb) :
    (hsDev f args t d).colorTemp = d.colorTemp := by
  unfold hsDev; split <;> [split <;> rfl; rfl]

theorem hsDev_effects (f : ℚ × ℚ → String) (args : TurnOnArgs) (t : DeviceTypes) (d : Bulb) :
    (hsDev f args t d).effects = d.effects := by
  unfold hsDev; split <;> [split <;> rfl; rfl]

theorem efDev_brightness (args : TurnOnArgs) (d : Bulb) :
    (efDev args d).brightness = d.brightness := by
  unfold efDev; split <;> [skip; rfl] <;> split <;> [rfl; split <;> [rfl; split <;> [rfl; split <;> rfl]]]

theorem efDev_colorTemp (args : TurnOnArgs) (d : Bulb) :
    (efDev args d).colorTemp = d.colorTemp := by
  unfold efDev; split <;> [skip; rfl] <;> split <;> [rfl; split <;> [rfl; split <;> [rfl; split <;> rfl]]]

theorem efDev_productType (args : TurnOnArgs) (d : Bulb) :
    (efDev args d).productType = d.productType := by
  unfold efDev; split <;> [skip; rfl] <;> split <;> [rfl; split <;> [rfl; split <;> [rfl; split <;> rfl]]]

theorem efDev_sunMatch_of_ne (args : TurnOnArgs)
    (h : args.effect ≠ some EFFECT_SUN_MATCH) (d : Bulb) :
    (efDev args d).sunMatch = d.sunMatch := by
  unfold efDev
  cases he : args.effect with
  | none => rfl
  | some e =>
      have hne : ¬e = EFFECT_SUN_MATCH := by
        intro hc; exact h (by simp [he, hc])
      simp only [hne, if_false]
      split <;> [rfl; split <;> [rfl; split <;> rfl]]

/-- The sun-match block reads only the bulb's `sunMatch` field. -/
theorem smOpts_congr (args : TurnOnArgs) (d d2 : Bulb) (h : d.sunMatch = d2.sunMatch) :
    smOpts args d = smOpts args d2 := by
  simp [smOpts, h]

/-- Master characterisation of the option list scheduled by
`WyzeLight.async_turn_on`: the concatenation of the five block segments. -/
theorem async_turn_on_options (f : ℚ × ℚ → String) (g : Nat → String)
    (ent : WyzeLight) (optLC : Bool) (args : TurnOnArgs) :
    (WyzeLight.async_turn_on f g ent optLC args).options =
      brOpts args ++ smOpts args ent.device ++ ctOpts args ent.deviceType
        ++ hsOpts f args ent.deviceType ++ efOpts args := by
  simp [WyzeLight.async_turn_on, LightCallResult.options, ScheduledCall.optionsSent,
    brightnessStep_eq, sunMatchStep_eq, colorTempStep_eq, hsColorStep_eq, effectStep_eq,
    smOpts_congr args _ _ (brDev_sunMatch args ent.device)]

/-- Master characterisation of the bulb record held by the entity after
`WyzeLight.async_turn_on`: the five block transforms followed by the
optimistic `on = True`. -/
theorem async_turn_on_device (f : ℚ × ℚ → String) (g : Nat → String)
    (ent : WyzeLight) (optLC : Bool) (args : TurnOnArgs) :
    (WyzeLight.async_turn_on f g ent optLC args).entity.device =
      { efDev args
          (hsDev f args ent.deviceType
            (ctDev g args ent.deviceType
              (smDev args (brDev args ent.device)))) with «on» := true } := by
  simp [WyzeLight.async_turn_on,
    brightnessStep_eq, sunMatchStep_eq, colorTempStep_eq, hsColorStep_eq, effectStep_eq]

/-- The `_just_updated` flag is set by `async_turn_on` (line 215). -/
theorem async_turn_on_justUpdated (f : ℚ × ℚ → String) (g : Nat → String)
    (ent : WyzeLight) (optLC : Bool) (args : TurnOnArgs) :
    (WyzeLight.async_turn_on f g ent optLC args).entity.justUpdated = true := by
  simp [WyzeLight.async_turn_on]

/-! Concrete sample data used by witnesses and counterexamples. -/

/-- Sample plain bulb (device type `LIGHT`). -/
def bulbSample : Bulb :=
  ⟨DeviceTypes.LIGHT, false, 50, 3000, "ffffff", "2", "1", false⟩

/-- Sample mesh-light bulb with sun match enabled. -/
def bulbMeshSample : Bulb :=
  ⟨DeviceTypes.MESH_LIGHT, false, 50, 3000, "ffffff", "2", "1", true⟩

/-- Sample camera with an active spotlight status. -/
def camSpot : Camera := ⟨some 1, false⟩

/-- Sample camera with spotlight status zero. -/
def camNoSpot : Camera := ⟨some 0, false⟩

/-- Sample camera without a spotlight status key. -/
def camMissing : Camera := ⟨none, false⟩

/-- Sample `WyzeLight` entity for a plain bulb. -/
def entSample : WyzeLight := ⟨bulbSample, DeviceTypes.LIGHT, true, false⟩

/-- Sample `WyzeLight` entity for a mesh light. -/
def entMeshSample : WyzeLight := ⟨bulbMeshSample, DeviceTypes.MESH_LIGHT, true, false⟩

/-- Concrete stand-in for the HS-to-hex colour conversion. -/
def hexHS : ℚ × ℚ → String := fun _ => "ff0000"

/-- Concrete stand-in for the Kelvin-to-hex colour conversion. -/
def hexKelvin : Nat → String := fun _ => "ffddcc"

/-- Turn-on arguments supplying only a brightness of 128. -/
def argsBrightnessOnly : TurnOnArgs := ⟨some 128, none, none, none⟩

/-- Turn-on arguments supplying only a colour temperature of 370 mireds. -/
def argsColorTempOnly : TurnOnArgs := ⟨none, some 370, none, none⟩

/-- Turn-on arguments supplying only an HS colour. -/
def argsHsOnly : TurnOnArgs := ⟨none, none, some (0, 0), none⟩

/-! Bounds for `pyRound`. -/

theorem ratFloor_eq_intFloor (x : ℚ) : x.floor = ⌊x⌋ := by
  rw [Rat.floor_def', Rat.floor_def]

theorem le_pyRound_of_le (n : ℤ) (x : ℚ) (h : (n : ℚ) ≤ x) : n ≤ pyRound x := by
  have hf : n ≤ ⌊x⌋ := Int.le_floor.mpr h
  unfold pyRound
  dsimp only
  rw [ratFloor_eq_intFloor]
  split
  · exact hf
  · split
    · omega
    · split <;> omega

theorem pyRound_le_of_le (n : ℤ) (x : ℚ) (h : x ≤ (n : ℚ)) : pyRound x ≤ n := by
  have hf : ⌊x⌋ ≤ n := by
    have := Int.floor_le_floor h
    simpa using this
  unfold pyRound
  dsimp only
  rw [ratFloor_eq_intFloor]
  split
  case isTrue h1 => exact hf
  case isFalse h1 =>
    have h3 : (1 : ℚ)/2 ≤ x - ⌊x⌋ := not_lt.mp h1
    have h4 : (⌊x⌋ : ℚ) < (n : ℚ) := by linarith
    have h5 : ⌊x⌋ < n := by exact_mod_cast h4
    split
    · omega
    · split <;> omega

/-- C8: `WyzeLight.__init__` raises `AttributeError` exactly when the bulb's
device type is not `LIGHT`, `MESH_LIGHT` or `LIGHTSTRIP`; consequently every
successfully constructed `WyzeLight` has a supported device type. -/
theorem wyzeLight_init_attributeError_iff (bulb : Bulb) (optLC : Bool) :
    WyzeLight.init bulb optLC
        = Except.error (PyExc.AttributeError "Device type not supported")
      ↔ bulb.productType ∉ [DeviceTypes.LIGHT, DeviceTypes.MESH_LIGHT, DeviceTypes.LIGHTSTRIP] := by
  unfold WyzeLight.init
  by_cases h : bulb.productType ∈ [DeviceTypes.LIGHT, DeviceTypes.MESH_LIGHT, DeviceTypes.LIGHTSTRIP] <;>
    simp [h]

/-- C10: `async_update` fetches fresh state exactly when `_just_updated` is
clear; when the flag is set it leaves the device record unchanged and only
clears the flag.  Both `async_turn_on` and `async_turn_off` set the flag, so
the first update after a command is skipped (record kept) and the second
proceeds (record replaced by the service result). -/
theorem async_update_skips_once_after_command (f : ℚ × ℚ → String) (g : Nat → String)
    (ent st : WyzeLight) (optLC : Bool) (args : TurnOnArgs) (fresh fresh1 fresh2 : Bulb)
    (hflag : st.justUpdated = true) (hct : args.colorTemp ≠ some 0) :
    (∀ st2 : WyzeLight, ∀ fr : Bulb, (WyzeLight.async_update st2 fr).2 = !st2.justUpdated)
    ∧ ((WyzeLight.async_update st fresh).1.device = st.device
        ∧ (WyzeLight.async_update st fresh).1.justUpdated = false)
    ∧ (let r := WyzeLight.async_turn_on f g ent optLC args
       let u1 := WyzeLight.async_update r.entity fresh1
       u1.2 = false ∧ u1.1.device = r.entity.device
         ∧ (WyzeLight.async_update u1.1 fresh2).2 = true
         ∧ (WyzeLight.async_update u1.1 fresh2).1.device = fresh2)
    ∧ (WyzeLight.async_turn_off ent optLC).entity.justUpdated = true := by
  refine ⟨?_, ?_, ?_, ?_⟩
  · intro st2 fr
    cases h : st2.justUpdated <;> simp [WyzeLight.async_update, h]
  · constructor <;> simp [WyzeLight.async_update, hflag]
  · have hj := async_turn_on_justUpdated f g ent optLC args
    simp only [WyzeLight.async_update, hj]
    simp
  · simp [WyzeLight.async_turn_off]

/-- Witness for C10 at concrete inputs. -/
theorem async_update_skips_once_after_command_witness :
    (⟨bulbSample, DeviceTypes.LIGHT, true, true⟩ : WyzeLight).justUpdated = true
    ∧ argsBrightnessOnly.colorTemp ≠ some 0
    ∧ ((∀ st2 : WyzeLight, ∀ fr : Bulb,
          (WyzeLight.async_update st2 fr).2 = !st2.justUpdated)
      ∧ ((WyzeLight.async_update ⟨bulbSample, DeviceTypes.LIGHT, true, true⟩ bulbMeshSample).1.device
            = (⟨bulbSample, DeviceTypes.LIGHT, true, true⟩ : WyzeLight).device
          ∧ (WyzeLight.async_update ⟨bulbSample, DeviceTypes.LIGHT, true, true⟩ bulbMeshSample).1.justUpdated = false)
      ∧ (let r := WyzeLight.async_turn_on hexHS hexKelvin entSample true argsBrightnessOnly
         let u1 := WyzeLight.async_update r.entity bulbSample
         u1.2 = false ∧ u1.1.device = r.entity.device
           ∧ (WyzeLight.async_update u1.1 bulbMeshSample).2 = true
           ∧ (WyzeLight.async_update u1.1 bulbMeshSample).1.device = bulbMeshSample)
      ∧ (WyzeLight.async_turn_off entSample true).entity.justUpdated = true) :=
  ⟨rfl, by decide,
   async_update_skips_once_after_command hexHS hexKelvin entSample
     ⟨bulbSample, DeviceTypes.LIGHT, true, true⟩ true argsBrightnessOnly
     bulbMeshSample bulbSample bulbMeshSample rfl (by decide)⟩

/-- C4: the bulb commands are optimistic and fire-and-forget: when
`async_turn_on` returns, the local record's `on` field is `True` (after
`async_turn_off` it is `False`) independently of the scheduled remote call,
which both methods hand to `loop.create_task` without awaiting it. -/
theorem turn_commands_optimistic_fire_and_forget (f : ℚ × ℚ → String) (g : Nat → String)
    (ent ent2 : WyzeLight) (optLC optLC2 : Bool) (args : TurnOnArgs)
    (hct : args.colorTemp ≠ some 0) :
    (WyzeLight.async_turn_on f g ent optLC args).entity.device.«on» = true
    ∧ (WyzeLight.async_turn_off ent2 optLC2).entity.device.«on» = false
    ∧ wyzeLightTurnOnCallStyle = CallStyle.fireAndForget
    ∧ wyzeLightTurnOffCallStyle = CallStyle.fireAndForget := by
  refine ⟨?_, by simp [WyzeLight.async_turn_off], rfl, rfl⟩
  rw [async_turn_on_device]

/-- Witness for C4 at concrete inputs. -/
theorem turn_commands_optimistic_fire_and_forget_witness :
    argsBrightnessOnly.colorTemp ≠ some 0
    ∧ ((WyzeLight.async_turn_on hexHS hexKelvin entSample true argsBrightnessOnly).entity.device.«on» = true
      ∧ (WyzeLight.async_turn_off entMeshSample false).entity.device.«on» = false
      ∧ wyzeLightTurnOnCallStyle = CallStyle.fireAndForget
      ∧ wyzeLightTurnOffCallStyle = CallStyle.fireAndForget) :=
  ⟨by decide,
   turn_commands_optimistic_fire_and_forget hexHS hexKelvin entSample entMeshSample
     true false argsBrightnessOnly (by decide)⟩

theorem buildWyzeLights_ok (optLC : Bool) (bulbs : List Bulb)
    (h : ∀ b ∈ bulbs,
      b.productType ∈ [DeviceTypes.LIGHT, DeviceTypes.MESH_LIGHT, DeviceTypes.LIGHTSTRIP]) :
    buildWyzeLights optLC bulbs = Except.ok (bulbs.map fun b =>
      LightPlatformEntity.light ⟨b, b.productType, optLC, false⟩) := by
  induction bulbs with
  | nil => rfl
  | cons b bs ih =>
      have hb := h b (by simp)
      have ihh := ih (fun x hx => h x (by simp [hx]))
      simp only [buildWyzeLights, WyzeLight.init, if_pos hb, ihh]
      rfl

/-- C6: when every bulb returned by `get_bulbs` has a supported device type
(true of the bulb service, which only returns light devices),
`async_setup_entry` adds exactly one `WyzeLight` per bulb and one
`WyzeCamerafloodlight` per camera whose `spotlight_status` (default 0) is
positive, in that order, and nothing else. -/
theorem setup_entry_entities (optLC : Bool) (bulbs : List Bulb) (cameras : List Camera)
    (h : ∀ b ∈ bulbs,
      b.productType ∈ [DeviceTypes.LIGHT, DeviceTypes.MESH_LIGHT, DeviceTypes.LIGHTSTRIP]) :
    async_setup_entry optLC bulbs cameras = Except.ok
      ((bulbs.map fun b => LightPlatformEntity.light ⟨b, b.productType, optLC, false⟩)
        ++ (cameras.filter fun c => 0 < c.spotlightStatus.getD 0).map
            LightPlatformEntity.cameraFloodlight) := by
  unfold async_setup_entry
  rw [buildWyzeLights_ok optLC bulbs h]
  rfl

/-- Witness for C6 at concrete inputs. -/
theorem setup_entry_entities_witness :
    (∀ b ∈ [bulbSample, bulbMeshSample],
      b.productType ∈ [DeviceTypes.LIGHT, DeviceTypes.MESH_LIGHT, DeviceTypes.LIGHTSTRIP])
    ∧ async_setup_entry true [bulbSample, bulbMeshSample] [camSpot, camNoSpot, camMissing]
        = Except.ok
          (([bulbSample, bulbMeshSample].map fun b =>
              LightPlatformEntity.light ⟨b, b.productType, true, false⟩)
            ++ ([camSpot, camNoSpot, camMissing].filter fun c =>
                  0 < c.spotlightStatus.getD 0).map LightPlatformEntity.cameraFloodlight) :=
  ⟨by decide,
   setup_entry_entities true [bulbSample, bulbMeshSample] [camSpot, camNoSpot, camMissing]
     (by decide)⟩

/-- C1: a turn-on call whose keyword arguments include a host brightness
value `b` (0-255) sends a `BRIGHTNESS` pair valued `str(round((b/255)*100))`
in the scheduled command options, and stores that same percentage in the
local bulb record. -/
theorem async_turn_on_brightness_command (f : ℚ × ℚ → String) (g : Nat → String)
    (ent : WyzeLight) (optLC : Bool) (args : TurnOnArgs) (b : Nat)
    (hb : args.brightness = some b) (hle : b ≤ 255) (hct : args.colorTemp ≠ some 0) :
    create_pid_pair PropertyIDs.BRIGHTNESS (toString (pyRound ((b : ℚ) / 255 * 100)))
        ∈ (WyzeLight.async_turn_on f g ent optLC args).options
    ∧ (WyzeLight.async_turn_on f g ent optLC args).entity.device.brightness
        = pyRound ((b : ℚ) / 255 * 100) := by
  constructor
  · rw [async_turn_on_options]
    simp [brOpts, hb]
  · rw [async_turn_on_device]
    simp [efDev_brightness, hsDev_brightness, ctDev_brightness, smDev_brightness, brDev, hb]

/-- Witness for C1 at concrete inputs: brightness 128 maps to 50 percent. -/
theorem async_turn_on_brightness_command_witness :
    (argsBrightnessOnly.brightness = some 128 ∧ 128 ≤ 255
      ∧ argsBrightnessOnly.colorTemp ≠ some 0)
    ∧ (create_pid_pair PropertyIDs.BRIGHTNESS (toString (pyRound (((128 : Nat) : ℚ) / 255 * 100)))
        ∈ (WyzeLight.async_turn_on hexHS hexKelvin entSample true argsBrightnessOnly).options
      ∧ (WyzeLight.async_turn_on hexHS hexKelvin entSample true argsBrightnessOnly).entity.device.brightness
        = pyRound (((128 : Nat) : ℚ) / 255 * 100)) :=
  ⟨⟨rfl, by decide, by decide⟩,
   async_turn_on_brightness_command hexHS hexKelvin entSample true argsBrightnessOnly 128
     rfl (by decide) (by decide)⟩

theorem pyRound_intCast (n : ℤ) : pyRound ((n : ℚ)) = n := by
  unfold pyRound
  dsimp only
  rw [ratFloor_eq_intFloor, Int.floor_intCast]
  norm_num

theorem pyRound_eq_of_eq_int (x : ℚ) (n : ℤ) (h : x = (n : ℚ)) : pyRound x = n := by
  rw [h, pyRound_intCast]

/-- C2: the `brightness` property returns `round(brightness * 2.55, 1)` of
the stored percentage; for percentages 0-100 the result lies in the host's
0-255 brightness range, with 0 mapping to 0 and 100 mapping to 255. -/
theorem brightness_property_range (ent : WyzeLight)
    (h0 : 0 ≤ ent.device.brightness) (h100 : ent.device.brightness ≤ 100) :
    WyzeLight.brightness ent = pyRoundTo1 ((ent.device.brightness : ℚ) * 2.55)
    ∧ 0 ≤ WyzeLight.brightness ent ∧ WyzeLight.brightness ent ≤ 255
    ∧ (ent.device.brightness = 0 → WyzeLight.brightness ent = 0)
    ∧ (ent.device.brightness = 100 → WyzeLight.brightness ent = 255) := by
  have hp0 : (0 : ℚ) ≤ (ent.device.brightness : ℚ) := by exact_mod_cast h0
  have hp100 : (ent.device.brightness : ℚ) ≤ 100 := by exact_mod_cast h100
  have hlo : (0 : ℤ) ≤ pyRound ((ent.device.brightness : ℚ) * 2.55 * 10) := by
    apply le_pyRound_of_le
    push_cast
    nlinarith
  have hhi : pyRound ((ent.device.brightness : ℚ) * 2.55 * 10) ≤ 2550 := by
    apply pyRound_le_of_le
    push_cast
    nlinarith
  refine ⟨rfl, ?_, ?_, ?_, ?_⟩
  · unfold WyzeLight.brightness pyRoundTo1
    have hq : (0 : ℚ) ≤ (pyRound ((ent.device.brightness : ℚ) * 2.55 * 10) : ℚ) := by
      exact_mod_cast hlo
    exact div_nonneg hq (by norm_num)
  · unfold WyzeLight.brightness pyRoundTo1
    rw [div_le_iff₀ (by norm_num : (0 : ℚ) < 10)]
    have hq : ((pyRound ((ent.device.brightness : ℚ) * 2.55 * 10)) : ℚ) ≤ 2550 := by
      exact_mod_cast hhi
    linarith
  · intro h
    unfold WyzeLight.brightness pyRoundTo1
    rw [h]
    rw [pyRound_eq_of_eq_int _ 0 (by push_cast; ring)]
    norm_num
  · intro h
    unfold WyzeLight.brightness pyRoundTo1
    rw [h]
    rw [pyRound_eq_of_eq_int _ 2550 (by push_cast; norm_num)]
    norm_num

/-- Witness for C2 at a concrete entity with brightness 50. -/
theorem brightness_property_range_witness :
    (0 ≤ entSample.device.brightness ∧ entSample.device.brightness ≤ 100)
    ∧ (WyzeLight.brightness entSample
        = pyRoundTo1 ((entSample.device.brightness : ℚ) * 2.55)
      ∧ 0 ≤ WyzeLight.brightness entSample ∧ WyzeLight.brightness entSample ≤ 255
      ∧ (entSample.device.brightness = 0 → WyzeLight.brightness entSample = 0)
      ∧ (entSample.device.brightness = 100 → WyzeLight.brightness entSample = 255)) :=
  ⟨⟨by decide, by decide⟩,
   brightness_property_range entSample (by decide) (by decide)⟩

/-- C3: the `color_temp` property exposes mireds (`10^6` divided by the
stored Kelvin value); a turn-on call with mired value `m` stores the Kelvin
conversion of `m`; and for `m` inside the entity's advertised mired range
the property read back after the call equals `m` exactly. -/
theorem color_temp_mired_roundtrip (f : ℚ × ℚ → String) (g : Nat → String)
    (ent : WyzeLight) (optLC : Bool) (args : TurnOnArgs) (m : Nat)
    (hm : args.colorTemp = some m)
    (hmin : WyzeLight.min_mireds ≤ m)
    (hmax : m ≤ WyzeLight.max_mireds DeviceTypes.MESH_LIGHT) :
    WyzeLight.color_temp ent = color_temperature_kelvin_to_mired ent.device.colorTemp
    ∧ (WyzeLight.async_turn_on f g ent optLC args).entity.device.colorTemp
        = color_temperature_mired_to_kelvin m
    ∧ WyzeLight.color_temp (WyzeLight.async_turn_on f g ent optLC args).entity = m := by
  have hset : (WyzeLight.async_turn_on f g ent optLC args).entity.device.colorTemp
      = color_temperature_mired_to_kelvin m := by
    rw [async_turn_on_device]
    simp [efDev_colorTemp, hsDev_colorTemp, ctDev_colorTemp, hm]
  refine ⟨rfl, hset, ?_⟩
  have key : ∀ k, k < 555 → 154 ≤ k → 1000000 / (1000000 / k) = k := by
    set_option maxRecDepth 4000 in decide
  have h154 : 154 ≤ m := by
    have hmm : WyzeLight.min_mireds = 154 := by decide
    omega
  have h554 : m < 555 := by
    have hmm : WyzeLight.max_mireds DeviceTypes.MESH_LIGHT = 554 := by decide
    omega
  unfold WyzeLight.color_temp
  rw [hset]
  unfold color_temperature_kelvin_to_mired color_temperature_mired_to_kelvin
  exact key m h554 h154

/-- Witness for C3 at 370 mireds (2702 Kelvin). -/
theorem color_temp_mired_roundtrip_witness :
    (argsColorTempOnly.colorTemp = some 370
      ∧ WyzeLight.min_mireds ≤ 370
      ∧ 370 ≤ WyzeLight.max_mireds DeviceTypes.MESH_LIGHT)
    ∧ (WyzeLight.color_temp entSample
        = color_temperature_kelvin_to_mired entSample.device.colorTemp
      ∧ (WyzeLight.async_turn_on hexHS hexKelvin entSample true argsColorTempOnly).entity.device.colorTemp
        = color_temperature_mired_to_kelvin 370
      ∧ WyzeLight.color_temp (WyzeLight.async_turn_on hexHS hexKelvin entSample true argsColorTempOnly).entity
        = 370) :=
  ⟨⟨rfl, by decide, by decide⟩,
   color_temp_mired_roundtrip hexHS hexKelvin entSample true argsColorTempOnly 370
     rfl (by decide) (by decide)⟩

/-- C9: a turn-on call supplying only a brightness leaves the bulb's
sun-match, colour-mode, colour, colour-temperature and effects fields
untouched and sends no `SUN_MATCH`, `COLOR_MODE`, `COLOR` or `COLOR_TEMP`
pair; whereas when the bulb has sun match enabled and a truthy
colour-temperature-or-HS argument is supplied, a `SUN_MATCH` pair valued
`"0"` is appended and the local sun-match field is cleared (it stays
cleared because such a call does not also request the sun-match effect,
which would re-enable it at line 181). -/
theorem turn_on_brightness_frame_and_sun_match_reset
    (f : ℚ × ℚ → String) (g : Nat → String) (ent ent2 : WyzeLight)
    (optLC optLC2 : Bool) (b : Nat) (args2 : TurnOnArgs)
    (h1 : ent2.device.sunMatch = true) (h2 : ctOrHsTruthy args2 = true)
    (h3 : args2.colorTemp ≠ some 0) (h4 : args2.effect ≠ some EFFECT_SUN_MATCH) :
    (let r := WyzeLight.async_turn_on f g ent optLC (TurnOnArgs.mk (some b) none none none)
     (r.entity.device.sunMatch = ent.device.sunMatch
        ∧ r.entity.device.colorMode = ent.device.colorMode
        ∧ r.entity.device.color = ent.device.color
        ∧ r.entity.device.colorTemp = ent.device.colorTemp
        ∧ r.entity.device.effects = ent.device.effects)
     ∧ ∀ p ∈ r.options, p.pid ∉ [PropertyIDs.SUN_MATCH, PropertyIDs.COLOR_MODE,
          PropertyIDs.COLOR, PropertyIDs.COLOR_TEMP])
    ∧ (let r2 := WyzeLight.async_turn_on f g ent2 optLC2 args2
       create_pid_pair PropertyIDs.SUN_MATCH "0" ∈ r2.options
       ∧ r2.entity.device.sunMatch = false) := by
  dsimp only
  refine ⟨⟨?_, ?_⟩, ?_, ?_⟩
  · rw [async_turn_on_device]
    simp [efDev, hsDev, ctDev, smDev, brDev, ctOrHsTruthy]
  · rw [async_turn_on_options]
    intro p hp
    simp [brOpts, smOpts, ctOpts, hsOpts, efOpts, ctOrHsTruthy] at hp
    simp [hp, create_pid_pair]
  · rw [async_turn_on_options]
    have hsm : create_pid_pair PropertyIDs.SUN_MATCH "0" ∈ smOpts args2 ent2.device := by
      simp [smOpts, h1, h2]
    simp [hsm]
  · rw [async_turn_on_device]
    have hef := efDev_sunMatch_of_ne args2 h4
    simp [hef, hsDev_sunMatch, ctDev_sunMatch, smDev, brDev_sunMatch, h1, h2]

/-- Witness for C9 at concrete inputs: a brightness-only call on a plain
bulb, and a colour-temperature call on a mesh light with sun match on. -/
theorem turn_on_brightness_frame_and_sun_match_reset_witness :
    (entMeshSample.device.sunMatch = true
      ∧ ctOrHsTruthy argsColorTempOnly = true
      ∧ argsColorTempOnly.colorTemp ≠ some 0
      ∧ argsColorTempOnly.effect ≠ some EFFECT_SUN_MATCH)
    ∧ ((let r := WyzeLight.async_turn_on hexHS hexKelvin entSample true
          (TurnOnArgs.mk (some 128) none none none)
        (r.entity.device.sunMatch = entSample.device.sunMatch
          ∧ r.entity.device.colorMode = entSample.device.colorMode
          ∧ r.entity.device.color = entSample.device.color
          ∧ r.entity.device.colorTemp = entSample.device.colorTemp
          ∧ r.entity.device.effects = entSample.device.effects)
        ∧ ∀ p ∈ r.options, p.pid ∉ [PropertyIDs.SUN_MATCH, PropertyIDs.COLOR_MODE,
            PropertyIDs.COLOR, PropertyIDs.COLOR_TEMP])
      ∧ (let r2 := WyzeLight.async_turn_on hexHS hexKelvin entMeshSample false argsColorTempOnly
         create_pid_pair PropertyIDs.SUN_MATCH "0" ∈ r2.options
         ∧ r2.entity.device.sunMatch = false)) :=
  ⟨⟨rfl, by decide, by decide, by decide⟩,
   turn_on_brightness_frame_and_sun_match_reset hexHS hexKelvin entSample entMeshSample
     true false 128 argsColorTempOnly rfl (by decide) (by decide) (by decide)⟩

/-- Property-ID list described by the amended claim C7: the pairs sent are
exactly those for the supplied attributes, together with the explicit
mode-switching and sun-match-reset pairs the code appends (white mode when
colour temperature is set on a mesh light or lightstrip, colour mode when an
HS colour is set on those device types, effects mode for any effect other
than sun match with a `LIGHTSTRIP_EFFECTS` discriminator for the three named
lightstrip effects, and a sun-match reset when the bulb had sun match on and
a truthy colour argument arrives). -/
def expectedPids (args : TurnOnArgs) (dev : Bulb) (devType : DeviceTypes) :
    List PropertyIDs :=
  (match args.brightness with | some _ => [PropertyIDs.BRIGHTNESS] | none => [])
  ++ (if dev.sunMatch then
        if ctOrHsTruthy args then [PropertyIDs.SUN_MATCH] else []
      else [])
  ++ (match args.colorTemp with
      | some _ => PropertyIDs.COLOR_TEMP ::
          (if devType ∈ [DeviceTypes.MESH_LIGHT, DeviceTypes.LIGHTSTRIP] then
            [PropertyIDs.COLOR_MODE] else [])
      | none => [])
  ++ (match args.hsColor with
      | some _ =>
          if devType = DeviceTypes.MESH_LIGHT ∨ devType = DeviceTypes.LIGHTSTRIP then
            [PropertyIDs.COLOR, PropertyIDs.COLOR_MODE]
          else []
      | none => [])
  ++ (match args.effect with
      | some e =>
          if e = EFFECT_SUN_MATCH then [PropertyIDs.SUN_MATCH]
          else PropertyIDs.COLOR_MODE ::
            (if e = EFFECT_SHADOW then [PropertyIDs.LIGHTSTRIP_EFFECTS]
             else if e = EFFECT_LEAP then [PropertyIDs.LIGHTSTRIP_EFFECTS]
             else if e = EFFECT_FLICKER then [PropertyIDs.LIGHTSTRIP_EFFECTS]
             else [])
      | none => [])

theorem brOpts_pids (args : TurnOnArgs) :
    (brOpts args).map PidPair.pid
      = (match args.brightness with | some _ => [PropertyIDs.BRIGHTNESS] | none => []) := by
  cases h : args.brightness <;> simp [brOpts, h, create_pid_pair]

theorem smOpts_pids (args : TurnOnArgs) (d : Bulb) :
    (smOpts args d).map PidPair.pid
      = (if d.sunMatch then
          if ctOrHsTruthy args then [PropertyIDs.SUN_MATCH] else []
        else []) := by
  cases h : d.sunMatch <;> cases h2 : ctOrHsTruthy args <;>
    simp [smOpts, h, h2, create_pid_pair]

theorem ctOpts_pids (args : TurnOnArgs) (devType : DeviceTypes) :
    (ctOpts args devType).map PidPair.pid
      = (match args.colorTemp with
         | some _ => PropertyIDs.COLOR_TEMP ::
             (if devType ∈ [DeviceTypes.MESH_LIGHT, DeviceTypes.LIGHTSTRIP] then
               [PropertyIDs.COLOR_MODE] else [])
         | none => []) := by
  cases h : args.colorTemp with
  | none => simp [ctOpts, h]
  | some m =>
      by_cases hd : devType ∈ [DeviceTypes.MESH_LIGHT, DeviceTypes.LIGHTSTRIP] <;>
        simp [ctOpts, h, hd, create_pid_pair]

theorem hsOpts_pids (f : ℚ × ℚ → String) (args : TurnOnArgs) (devType : DeviceTypes) :
    (hsOpts f args devType).map PidPair.pid
      = (match args.hsColor with
         | some _ =>
             if devType = DeviceTypes.MESH_LIGHT ∨ devType = DeviceTypes.LIGHTSTRIP then
               [PropertyIDs.COLOR, PropertyIDs.COLOR_MODE]
             else []
         | none => []) := by
  cases h : args.hsColor with
  | none => simp [hsOpts, h]
  | some hs =>
      by_cases hd : devType = DeviceTypes.MESH_LIGHT ∨ devType = DeviceTypes.LIGHTSTRIP <;>
        simp [hsOpts, h, hd, create_pid_pair]

theorem efOpts_pids (args : TurnOnArgs) :
    (efOpts args).map PidPair.pid
      = (match args.effect with
         | some e =>
             if e = EFFECT_SUN_MATCH then [PropertyIDs.SUN_MATCH]
             else PropertyIDs.COLOR_MODE ::
               (if e = EFFECT_SHADOW then [PropertyIDs.LIGHTSTRIP_EFFECTS]
                else if e = EFFECT_LEAP then [PropertyIDs.LIGHTSTRIP_EFFECTS]
                else if e = EFFECT_FLICKER then [PropertyIDs.LIGHTSTRIP_EFFECTS]
                else [])
         | none => []) := by
  cases h : args.effect with
  | none => simp [efOpts, h]
  | some e =>
      by_cases h1 : e = EFFECT_SUN_MATCH
      · simp [efOpts, h, h1, create_pid_pair]
      · by_cases h2 : e = EFFECT_SHADOW <;> by_cases h3 : e = EFFECT_LEAP <;>
          by_cases h4 : e = EFFECT_FLICKER <;>
          simp_all [efOpts, create_pid_pair,
            EFFECT_SUN_MATCH, EFFECT_SHADOW, EFFECT_LEAP, EFFECT_FLICKER]

/-- C7 (amended): the property IDs of the pairs scheduled by a turn-on call
are exactly `expectedPids`: those of the supplied attributes plus the
explicit `COLOR_MODE` mode-switching pairs and `SUN_MATCH` reset the code
appends; no further pairs are sent. -/
theorem async_turn_on_option_pids (f : ℚ × ℚ → String) (g : Nat → String)
    (ent : WyzeLight) (optLC : Bool) (args : TurnOnArgs)
    (hct : args.colorTemp ≠ some 0) :
    ((WyzeLight.async_turn_on f g ent optLC args).options).map PidPair.pid
      = expectedPids args ent.device ent.deviceType := by
  rw [async_turn_on_options]
  simp only [List.map_append, brOpts_pids, smOpts_pids, ctOpts_pids, hsOpts_pids,
    efOpts_pids, expectedPids]

/-- Claim C7 as stated is false: a turn-on call supplying only an HS colour
on a mesh light also appends a `COLOR_MODE` mode-switching pair ("Put bulb
in Color Mode", light.py line 168-170), which corresponds to no supplied
attribute. -/
theorem turn_on_appends_mode_switch_pair :
    ¬ (∀ p ∈ (WyzeLight.async_turn_on hexHS hexKelvin entMeshSample true argsHsOnly).options,
        p.pid ≠ PropertyIDs.COLOR_MODE) := by decide

/-- Witness for C7 at concrete inputs. -/
theorem async_turn_on_option_pids_witness :
    argsHsOnly.colorTemp ≠ some 0
    ∧ ((WyzeLight.async_turn_on hexHS hexKelvin entMeshSample true argsHsOnly).options).map PidPair.pid
        = expectedPids argsHsOnly entMeshSample.device entMeshSample.deviceType :=
  ⟨by decide,
   async_turn_on_option_pids hexHS hexKelvin entMeshSample true argsHsOnly (by decide)⟩

/-- Claim C5 as stated is false: `WyzeLight.async_added_to_hass` (light.py
lines 354-359) issues vendor-library calls (`self._service.register_updater`,
`self._service.start_update_manager`) but carries no
`token_exception_handler` decorator. -/
theorem vendor_callers_not_all_wrapped : ¬ allVendorCallersWrapped := by
  unfold allVendorCallersWrapped
  decide

/-- C5 (amended): the operations wrapped by `token_exception_handler` are
exactly `async_setup_entry`, both classes' `async_turn_on` and
`async_turn_off`, and `WyzeLight.async_update` (`WyzeCamerafloodlight` has
no `async_update` method); the only vendor-calling operations without the
wrapper are `WyzeLight.async_added_to_hass` and
`async_will_remove_from_hass`; and no operation of the module contains any
other error handling. -/
theorem token_handler_wrapping_table :
    (lightModuleOps.filter (fun o => o.tokenWrapped)).map OpInfo.name
      = [OpName.asyncSetupEntry, OpName.lightAsyncTurnOn, OpName.lightAsyncTurnOff,
         OpName.lightAsyncUpdate, OpName.floodlightAsyncTurnOn, OpName.floodlightAsyncTurnOff]
    ∧ (lightModuleOps.filter (fun o => o.issuesVendorCalls && !o.tokenWrapped)).map OpInfo.name
      = [OpName.lightAsyncAddedToHass, OpName.lightAsyncWillRemoveFromHass]
    ∧ lightModuleOps.all (fun o => !o.hasTryExcept) = true := by decide
